import Mathlib

/-!
Shallow embedding of `app.py` (browser automation for a chart-calibration
web application) and proofs about its specification.

Numbers are modelled by `ℚ`: the Python values involved are ints and floats
holding integer or small-denominator values, and every arithmetic operation
performed by the script (`+`, `-`, `*`, `/`, `//`) is exact on rationals,
with Python's true division `/` modelled by rational division and Python's
floor division `//` by `⌊·/·⌋`.  Fallible evaluation (Python exceptions:
`TypeError` from arithmetic on `None`, `ZeroDivisionError` from division by
zero) is modelled with `Except`.
-/

namespace GraphHandler

/-- Size dictionary of a rendered element (`element.size` in the source):
keys `width` and `height`. -/
structure ImageSize where
  width : ℚ
  height : ℚ
deriving DecidableEq, Repr

/-- Embedding of `ImageAutomation.convert_original_coor_to_current`
(src/app.py lines 105-126):

    aspect_ratio = (image_size['width'] - 2 * border_size) / original_image_width
    x = (X0 - 1) * aspect_ratio - image_size['width'] // 2 + 1 + border_size
    y = (Y0 - 1) * aspect_ratio - image_size['height'] // 2 + 1 + border_size

Python's `//` is floor division, hence the `⌊·⌋`.  The parameter
`image_location` is accepted (as in the source) but never read. -/
def convert_original_coor_to_current (original_coor : ℚ × ℚ) (original_image_width : ℚ)
    (image_location : ℚ × ℚ) (image_size : ImageSize) (border_size : ℚ) : ℚ × ℚ :=
  let aspect_ratio := (image_size.width - 2 * border_size) / original_image_width
  let X0 := original_coor.1
  let Y0 := original_coor.2
  let x := (X0 - 1) * aspect_ratio - ((image_size.width / 2).floor : ℚ) + 1 + border_size
  let y := (Y0 - 1) * aspect_ratio - ((image_size.height / 2).floor : ℚ) + 1 + border_size
  (x, y)

/-- Python exceptions that the modelled fragments can raise. -/
inductive PyErr where
  | typeError
  | zeroDivisionError
deriving DecidableEq, Repr

/-- The same projection with Python's failure modes made explicit: the
border is `self.border_size`, which is `None` (`Option.none`) when
`find_image_element` parsed no border token — arithmetic on `None` raises
`TypeError`; and if `original_image_width` is zero the division raises
`ZeroDivisionError`. -/
def convertE (original_coor : ℚ × ℚ) (original_image_width : ℚ)
    (image_location : ℚ × ℚ) (image_size : ImageSize) (border_size : Option ℚ) :
    Except PyErr (ℚ × ℚ) :=
  match border_size with
  | none => Except.error PyErr.typeError
  | some b =>
    if original_image_width = 0 then Except.error PyErr.zeroDivisionError
    else Except.ok
      (convert_original_coor_to_current original_coor original_image_width
        image_location image_size b)

/-- ASCII reading of the regex word-character class (the `\w` used implicitly
by the `\b` anchors in `re.search(r'\b(\d+)px\b', border_style)`):
letters, digits and underscore.  Computed CSS border strings are ASCII. -/
def isWordChar (c : Char) : Bool := c.isAlphanum || c == '_'

/-- Value of a digit string, as `int(match.group(1))` computes it. -/
def natOfDigits (ds : List Char) : ℕ := ds.foldl (fun a c => 10 * a + (c.toNat - 48)) 0

/-- Attempt to match `(\d+)px\b` at the start of `cs` (the leading `\b` is the
caller's responsibility): a nonempty digit run, then `p`, `x`, then a word
boundary, i.e. the end of the string or a non-word character.  The regex
engine's greedy `\d+` with backtracking matches exactly the maximal digit run
here, since any shorter run would put a digit where `p` is required. -/
def matchHere (cs : List Char) : Option ℕ :=
  let ds := cs.takeWhile Char.isDigit
  match ds with
  | [] => none
  | _ :: _ =>
    match cs.drop ds.length with
    | 'p' :: 'x' :: rest =>
      match rest with
      | [] => some (natOfDigits ds)
      | c :: _ => if isWordChar c then none else some (natOfDigits ds)
    | _ => none

/-- The `\b` before the digits: a match may start here when the previous
character (if any) is a non-word character (the next one is a digit, hence a
word character). -/
def boundaryBefore : Option Char → Bool
  | none => true
  | some c => !(isWordChar c)

/-- Scan of `re.search`: try every position left to right, return the first
match.  `prev` is the character before the current position. -/
def searchFrom : Option Char → List Char → Option ℕ
  | _, [] => none
  | prev, c :: rest =>
    match (if boundaryBefore prev then matchHere (c :: rest) else none) with
    | some n => some n
    | none => searchFrom (some c) rest

/-- All match positions of the scan, in left-to-right order (used to state
which occurrence `re.search` returns). -/
def allMatchesFrom : Option Char → List Char → List ℕ
  | _, [] => []
  | prev, c :: rest =>
    match (if boundaryBefore prev then matchHere (c :: rest) else none) with
    | some n => n :: allMatchesFrom (some c) rest
    | none => allMatchesFrom (some c) rest

/-- Embedding of `re.search(r'\b(\d+)px\b', border_style)` followed by
`int(match.group(1))`: `none` when there is no match (the source's `if match:`
then leaves `self.border_size` at its initial `None`). -/
def searchIntPx (s : String) : Option ℕ := searchFrom none s.data

/-- The integer values of all `\b(\d+)px\b` occurrences in `s`, leftmost
first. -/
def allIntPxTokens (s : String) : List ℕ := allMatchesFrom none s.data

/-- The dataclass `Point` of src/app.py lines 205-208. -/
structure Point where
  x : ℚ
  y : ℚ
deriving DecidableEq, Repr

/-- The dataclass `UploadedImage` of src/app.py lines 210-224. -/
structure UploadedImage where
  pic_name : String
  image_width : ℚ
  xAxis_point1 : Point
  xAxis_point2 : Point
  yAxis_point1 : Point
  yAxis_point2 : Point
  xAxisValue_p1 : ℚ
  xAxisValue_p2 : ℚ
  yAxisValue_p1 : ℚ
  yAxisValue_p2 : ℚ
  clickedPoints : List Point
deriving DecidableEq, Repr

/-- The attributes set by `ImageAutomation.__init__` (src/app.py lines
32-77), apart from the driver handles and geometry fields, which are
captured separately at run time. -/
structure ImageAutomation where
  driver_path : String
  web_address : String
  pic_name : String
  original_image_width : ℚ
  original_axes_points : List (ℚ × ℚ)
  xAxisValue_p1 : ℚ
  xAxisValue_p2 : ℚ
  yAxisValue_p1 : ℚ
  yAxisValue_p2 : ℚ
  clickedPoints : List (ℚ × ℚ)
deriving DecidableEq, Repr

/-- Embedding of `ImageAutomation.__init__`: the axis points are collected
into the fixed order `[xAxis_point1, xAxis_point2, yAxis_point1,
yAxis_point2]` as coordinate tuples, and `clickedPoints` is mapped to tuples
in its given order (the walrus comprehensions on lines 52-56 and 67-70 build
plain `(point.x, point.y)` tuples). -/
def ImageAutomation.init (driver_path web_address : String)
    (originalImageObj : UploadedImage) : ImageAutomation where
  driver_path := driver_path
  web_address := web_address
  pic_name := originalImageObj.pic_name
  original_image_width := originalImageObj.image_width
  original_axes_points :=
    [originalImageObj.xAxis_point1, originalImageObj.xAxis_point2,
     originalImageObj.yAxis_point1, originalImageObj.yAxis_point2].map
      (fun point => (point.x, point.y))
  xAxisValue_p1 := originalImageObj.xAxisValue_p1
  xAxisValue_p2 := originalImageObj.xAxisValue_p2
  yAxisValue_p1 := originalImageObj.yAxisValue_p1
  yAxisValue_p2 := originalImageObj.yAxisValue_p2
  clickedPoints := originalImageObj.clickedPoints.map (fun point => (point.x, point.y))

/-- Geometry captured by `find_image_element` (src/app.py lines 131-141):
location and size are read from the element; `border_size` is the parsed
border token, left `none` (the initial `None`) when the regex finds no
match. -/
structure RenderedGeometry where
  image_location : ℚ × ℚ
  image_size : ImageSize
  border_size : Option ℕ
deriving DecidableEq, Repr

/-- Embedding of `find_image_element`: the element's location and size come
from the browser (inputs here), and the border is parsed from the computed
`border` style string.  Note that on a failed parse the method completes
normally with `border_size` still `None` — it raises nothing itself. -/
def find_image_element (location : ℚ × ℚ) (size : ImageSize) (border_style : String) :
    RenderedGeometry where
  image_location := location
  image_size := size
  border_size := searchIntPx border_style

/-- One observable browser action synthesized by the script, in the order
the script performs them. -/
inductive Action where
  | navigate (url : String)
  | maximizeWindow
  | sleepSettle
  | findById (elemId : String)
  | uploadFile (path : String)
  | acceptAlert
  | findByClass (cls : String)
  | moveToElement
  | moveByOffset (x y : ℚ)
  | click
  | clearField (elemId : String)
  | sendKeys (elemId : String) (value : ℚ)
  | printGeometry
  | awaitEnter
deriving DecidableEq, Repr

/-- The three chained pointer actions of
`actions.move_to_element(...).move_by_offset(x, y).click().perform()`. -/
def clickTriple (offset : ℚ × ℚ) : List Action :=
  [Action.moveToElement, Action.moveByOffset offset.1 offset.2, Action.click]

/-- The click loop of `perform_actions` over a list of coordinates (src
lines 153-155 and 168-170): each coordinate is converted and clicked; a
conversion failure (Python exception) aborts the loop. -/
def clicksE (points : List (ℚ × ℚ)) (w : ℚ) (loc : ℚ × ℚ) (sz : ImageSize)
    (b : Option ℚ) : Except PyErr (List Action) :=
  match points with
  | [] => Except.ok []
  | coor :: rest =>
    match convertE coor w loc sz b with
    | Except.error e => Except.error e
    | Except.ok offset =>
      match clicksE rest w loc sz b with
      | Except.error e => Except.error e
      | Except.ok tr => Except.ok (clickTriple offset ++ tr)

/-- The axis-value entry block of `perform_actions` (src/app.py lines
159-165), exactly as written: the element with id `x-axis-p2` is located,
cleared and receives `xAxisValue_p2`; the element with id `y-axis-p2` is
located and cleared, but line 165 then sends `yAxisValue_p2` to `x_axis_p2`
again, so the y-axis value is typed into the x-axis field. -/
def axisValueEntry (a : ImageAutomation) : List Action :=
  [Action.findById "x-axis-p2", Action.clearField "x-axis-p2",
   Action.sendKeys "x-axis-p2" a.xAxisValue_p2,
   Action.findById "y-axis-p2", Action.clearField "y-axis-p2",
   Action.sendKeys "x-axis-p2" a.yAxisValue_p2]

/-- Embedding of `perform_actions` (src/app.py lines 146-170) as the list
of synthesized browser actions: axis-point clicks, then the axis-value
entries, then the data-point clicks. -/
def perform_actions (a : ImageAutomation) (loc : ℚ × ℚ) (sz : ImageSize)
    (b : Option ℚ) : Except PyErr (List Action) :=
  match clicksE a.original_axes_points a.original_image_width loc sz b with
  | Except.error e => Except.error e
  | Except.ok axisClicks =>
    match clicksE a.clickedPoints a.original_image_width loc sz b with
    | Except.error e => Except.error e
    | Except.ok dataClicks => Except.ok (axisClicks ++ axisValueEntry a ++ dataClicks)

/-- Embedding of `run` (src/app.py lines 176-203) as the list of
synthesized browser actions of a session whose rendered element reports
`loc`, `sz` and the computed border style `border_style`: navigate,
maximize, settle, locate the upload control, upload the picture, accept the
alert, locate the image element, perform the clicks and entries, print the
geometry, and block on `input(...)` before quitting. -/
def run (a : ImageAutomation) (loc : ℚ × ℚ) (sz : ImageSize)
    (border_style : String) : Except PyErr (List Action) :=
  let geom := find_image_element loc sz border_style
  match perform_actions a geom.image_location geom.image_size
      (match geom.border_size with
       | none => none
       | some k => some ((k : ℚ))) with
  | Except.error e => Except.error e
  | Except.ok actTrace =>
    Except.ok
      ([Action.navigate a.web_address, Action.maximizeWindow, Action.sleepSettle,
        Action.findById "file-upload", Action.uploadFile a.pic_name, Action.acceptAlert,
        Action.findByClass "uploaded-image"] ++ actTrace ++
       [Action.printGeometry, Action.awaitEnter])

/-- The literal calibration data of `initializeImageObj` (src/app.py lines
226-262). -/
def initializeImageObj : UploadedImage where
  pic_name := "1.jpg"
  image_width := 784
  xAxis_point1 := ⟨127, 581⟩
  xAxis_point2 := ⟨735, 400⟩
  yAxis_point1 := ⟨262, 621⟩
  yAxis_point2 := ⟨192, 241⟩
  xAxisValue_p1 := 0
  xAxisValue_p2 := 10
  yAxisValue_p1 := 0
  yAxisValue_p2 := 100
  clickedPoints :=
    [⟨113, 505⟩, ⟨99, 429⟩, ⟨85, 354⟩, ⟨234, 469⟩, ⟨220, 393⟩,
     ⟨206, 318⟩, ⟨356, 433⟩, ⟨342, 357⟩, ⟨328, 281⟩]

/-- The automation instance built in `__main__` (src/app.py lines 267-278). -/
def mainAutomation : ImageAutomation :=
  ImageAutomation.init "D:\\z_softwareSource\\browserDrivers\\chrome\\chromedriver.exe"
    "https://master--adorable-gelato-b069ba.netlify.app/" initializeImageObj

/-- The click offsets of a trace, in order: the arguments of each
`move_by_offset`. -/
def clickOffsets (tr : List Action) : List (ℚ × ℚ) :=
  tr.filterMap (fun act =>
    match act with
    | Action.moveByOffset x y => some (x, y)
    | _ => none)

/-- The text-entry targets of a trace, in order: for each `send_keys`, the
id of the element receiving the keys and the value sent. -/
def sendKeysTargets (tr : List Action) : List (String × ℚ) :=
  tr.filterMap (fun act =>
    match act with
    | Action.sendKeys elemId v => some (elemId, v)
    | _ => none)

/-- Coarse classification of actions for counting claims: file uploads,
dialog acceptances, clicks, text entries, the operator-input block, and
everything else. -/
inductive ActionKind where
  | upload
  | dialog
  | click
  | textEntry
  | blockForInput
  | other
deriving DecidableEq, Repr

/-- The kind of one action. -/
def kindOf : Action → ActionKind
  | Action.uploadFile _ => ActionKind.upload
  | Action.acceptAlert => ActionKind.dialog
  | Action.click => ActionKind.click
  | Action.sendKeys _ _ => ActionKind.textEntry
  | Action.awaitEnter => ActionKind.blockForInput
  | _ => ActionKind.other

/-- The kinds of the user-visible actions of a trace, in order, with the
uncounted bookkeeping actions dropped. -/
def observableKinds (tr : List Action) : List ActionKind :=
  (tr.map kindOf).filter (fun k => !(k == ActionKind.other))

/-- The projection exactly as the specification claim describes it (for the
refinement statement): `scale = (width - 2*border)/original_width` derived
from the width alone and applied to both axes, and the half-width and
half-height terms computed with floor division. -/
def projection_per_spec (original_coor : ℚ × ℚ) (original_image_width : ℚ)
    (image_size : ImageSize) (border_size : ℚ) : ℚ × ℚ :=
  let scale := (image_size.width - 2 * border_size) / original_image_width
  ((original_coor.1 - 1) * scale - ⌊image_size.width / 2⌋ + 1 + border_size,
   (original_coor.2 - 1) * scale - ⌊image_size.height / 2⌋ + 1 + border_size)

end GraphHandler

namespace GraphHandler

/-- The computable `Rat.floor` used in the embedding agrees with the floor
of the `FloorRing` instance. -/
theorem ratFloor_eq_floor (q : ℚ) : q.floor = ⌊q⌋ := by
  rw [Rat.floor_def', Rat.floor_def]

/-- The first match that `re.search` reports is the head of the list of all
matches in left-to-right order. -/
theorem searchFrom_eq_head (cs : List Char) :
    ∀ prev, searchFrom prev cs = (allMatchesFrom prev cs).head? := by
  induction cs with
  | nil => intro prev; rfl
  | cons c rest ih =>
    intro prev
    rw [searchFrom, allMatchesFrom]
    cases hm : (if boundaryBefore prev then matchHere (c :: rest) else none) with
    | none => exact ih (some c)
    | some n => rfl

/-- With a parsed border and a nonzero original width the click loop raises
nothing and synthesizes one pointer triple per coordinate, in order. -/
theorem clicksE_ok (w : ℚ) (loc : ℚ × ℚ) (sz : ImageSize) (b : ℚ) (hw : w ≠ 0) :
    ∀ points : List (ℚ × ℚ),
      clicksE points w loc sz (some b) =
        Except.ok (points.flatMap fun coor =>
          clickTriple (convert_original_coor_to_current coor w loc sz b)) := by
  intro points
  induction points with
  | nil => rfl
  | cons c rest ih =>
    have hc : convertE c w loc sz (some b) =
        Except.ok (convert_original_coor_to_current c w loc sz b) := by
      simp [convertE, hw]
    rw [clicksE, hc, ih]
    rfl

/-- With a parsed border and a nonzero original width `perform_actions`
raises nothing and its trace is axis clicks, then the value entries, then
data clicks. -/
theorem perform_actions_ok (a : ImageAutomation) (loc : ℚ × ℚ) (sz : ImageSize) (b : ℚ)
    (hw : a.original_image_width ≠ 0) :
    perform_actions a loc sz (some b) =
      Except.ok
        ((a.original_axes_points.flatMap fun coor =>
            clickTriple
              (convert_original_coor_to_current coor a.original_image_width loc sz b)) ++
          axisValueEntry a ++
          (a.clickedPoints.flatMap fun coor =>
            clickTriple
              (convert_original_coor_to_current coor a.original_image_width loc sz b))) := by
  rw [perform_actions, clicksE_ok _ _ _ _ hw, clicksE_ok _ _ _ _ hw]

/-- The click offsets of a run of pointer triples are exactly the converted
coordinates, in order. -/
theorem clickOffsets_bind_clickTriple (f : (ℚ × ℚ) → (ℚ × ℚ)) :
    ∀ ps : List (ℚ × ℚ),
      clickOffsets (ps.flatMap fun coor => clickTriple (f coor)) = ps.map f := by
  intro ps
  induction ps with
  | nil => rfl
  | cons c rest ih =>
    rw [List.flatMap_cons, clickOffsets, List.filterMap_append]
    rw [clickOffsets] at ih
    rw [ih]
    rfl

/-- Pointer triples contain no text entry. -/
theorem sendKeysTargets_bind_clickTriple (f : (ℚ × ℚ) → (ℚ × ℚ)) :
    ∀ ps : List (ℚ × ℚ),
      sendKeysTargets (ps.flatMap fun coor => clickTriple (f coor)) = [] := by
  intro ps
  induction ps with
  | nil => rfl
  | cons c rest ih =>
    rw [List.flatMap_cons, sendKeysTargets, List.filterMap_append]
    rw [sendKeysTargets] at ih
    rw [ih]
    rfl

/-- Trace extraction distributes over concatenation (click offsets). -/
theorem clickOffsets_append (l1 l2 : List Action) :
    clickOffsets (l1 ++ l2) = clickOffsets l1 ++ clickOffsets l2 := by
  rw [clickOffsets, clickOffsets, clickOffsets, List.filterMap_append]

/-- Trace extraction distributes over concatenation (send-keys targets). -/
theorem sendKeysTargets_append (l1 l2 : List Action) :
    sendKeysTargets (l1 ++ l2) = sendKeysTargets l1 ++ sendKeysTargets l2 := by
  rw [sendKeysTargets, sendKeysTargets, sendKeysTargets, List.filterMap_append]

/-- Click offsets of a `perform_actions` trace of a session initialized by
`__init__` from `img`: the four axis points in the fixed input order, then
the data points in input order. -/
theorem clickOffsets_perform_init (img : UploadedImage) (dp wa : String) (loc : ℚ × ℚ)
    (sz : ImageSize) (b : ℚ) (hw : img.image_width ≠ 0) :
    Except.map clickOffsets
        (perform_actions (ImageAutomation.init dp wa img) loc sz (some b)) =
      Except.ok
        ([img.xAxis_point1, img.xAxis_point2, img.yAxis_point1, img.yAxis_point2].map
            (fun p =>
              convert_original_coor_to_current (p.x, p.y) img.image_width loc sz b) ++
          img.clickedPoints.map
            (fun p =>
              convert_original_coor_to_current (p.x, p.y) img.image_width loc sz b)) := by
  have hw2 : (ImageAutomation.init dp wa img).original_image_width ≠ 0 := hw
  rw [perform_actions_ok _ _ _ _ hw2]
  show Except.ok _ = _
  rw [clickOffsets_append, clickOffsets_append,
      clickOffsets_bind_clickTriple, clickOffsets_bind_clickTriple]
  simp [ImageAutomation.init, clickOffsets, axisValueEntry, List.map_map, Function.comp]

/-- C1 counterexample: at the claim's own example input
`W = 784, Sw = 784, Sh = 600, B = 2, (X0, Y0) = (127, 581)` the projection
does not return `(-263, 283)`: the scale is `780/784`, not `1`, so the
result is `(-25837/98, 13722/49) ≈ (-263.64, 280.04)`. -/
theorem C1_example_counterexample :
    convert_original_coor_to_current (127, 581) 784 (0, 0) ⟨784, 600⟩ 2 ≠
      ((-263 : ℚ), (283 : ℚ)) := by
  norm_num [convert_original_coor_to_current, ratFloor_eq_floor]

/-- C1 (amended): for every original point `(X0, Y0)`, original width `W`,
rendered size `(Sw, Sh)` and border `B`, the projection returns
`offset.x = (X0-1)*((Sw-2B)/W) - floor(Sw/2) + 1 + B` and
`offset.y = (Y0-1)*((Sw-2B)/W) - floor(Sh/2) + 1 + B` — the halving of `Sw`
and `Sh` is floor division, not exact division — and at the example input
`W=784, Sw=784, Sh=600, B=2, (X0,Y0)=(127,581)` it returns
`(-25837/98, 13722/49)`, not `(-263, 283)`. -/
theorem C1_projection_amended :
    (∀ (X0 Y0 W : ℚ) (loc : ℚ × ℚ) (Sw Sh B : ℚ),
      convert_original_coor_to_current (X0, Y0) W loc ⟨Sw, Sh⟩ B =
        ((X0 - 1) * ((Sw - 2 * B) / W) - ⌊Sw / 2⌋ + 1 + B,
         (Y0 - 1) * ((Sw - 2 * B) / W) - ⌊Sh / 2⌋ + 1 + B)) ∧
    convert_original_coor_to_current (127, 581) 784 (0, 0) ⟨784, 600⟩ 2 =
      (-25837 / 98, 13722 / 49) := by
  constructor
  · intro X0 Y0 W loc Sw Sh B
    simp [convert_original_coor_to_current, ratFloor_eq_floor]
  · norm_num [convert_original_coor_to_current, ratFloor_eq_floor]

/-- C6 counterexample: with border 0, doubling both the rendered width and
the original width does not leave the offset unchanged: at
`(X0, Y0) = (1, 1)`, `W = 1`, `(Sw, Sh) = (2, 2)` the offset is `(0, 0)`,
but with `W = 2`, `(Sw, Sh) = (4, 2)` it is `(-1, 0)` — the `Sw // 2`
centering term doubles along with `Sw`. -/
theorem C6_counterexample :
    convert_original_coor_to_current (1, 1) 2 (0, 0) ⟨4, 2⟩ 0 ≠
      convert_original_coor_to_current (1, 1) 1 (0, 0) ⟨2, 2⟩ 0 := by
  norm_num [convert_original_coor_to_current, ratFloor_eq_floor]

/-- C6 (amended): with border 0, doubling both `Sw` and `W` leaves the scale
factor and the y-offset unchanged, but shifts the x-offset by
`floor(Sw/2) - floor(Sw)`; only the y-coordinate of the offset is
invariant. -/
theorem C6_scale_doubling_amended (X0 Y0 W : ℚ) (loc : ℚ × ℚ) (Sw Sh : ℚ) :
    (2 * Sw - 2 * 0) / (2 * W) = (Sw - 2 * 0) / W ∧
    (convert_original_coor_to_current (X0, Y0) (2 * W) loc ⟨2 * Sw, Sh⟩ 0).2 =
      (convert_original_coor_to_current (X0, Y0) W loc ⟨Sw, Sh⟩ 0).2 ∧
    (convert_original_coor_to_current (X0, Y0) (2 * W) loc ⟨2 * Sw, Sh⟩ 0).1 =
      (convert_original_coor_to_current (X0, Y0) W loc ⟨Sw, Sh⟩ 0).1 +
        ⌊Sw / 2⌋ - ⌊Sw⌋ := by
  have h2 : (2 : ℚ) ≠ 0 := two_ne_zero
  have hsc : (2 * Sw - 2 * 0) / (2 * W) = (Sw - 2 * 0) / W := by
    rw [mul_zero, sub_zero, sub_zero, mul_div_mul_left Sw W h2]
  have hfl : (2 * Sw) / 2 = Sw := by
    rw [mul_comm, mul_div_assoc, div_self h2, mul_one]
  refine ⟨hsc, ?_, ?_⟩
  · simp only [convert_original_coor_to_current, hsc]
  · simp only [convert_original_coor_to_current, hsc, hfl, ratFloor_eq_floor]
    ring

/-- C7: under the preconditions `0 < original_width` and
`width > 2 * border`, the projection is total: the explicit-failure model
raises neither `TypeError` nor `ZeroDivisionError` and returns exactly the
pure projection's pair (the scale division cannot divide by zero). -/
theorem C7_projection_total (coor : ℚ × ℚ) (W : ℚ) (loc : ℚ × ℚ) (sz : ImageSize)
    (b : ℚ) (hW : 0 < W) (hsz : 2 * b < sz.width) :
    convertE coor W loc sz (some b) =
      Except.ok (convert_original_coor_to_current coor W loc sz b) := by
  simp [convertE, ne_of_gt hW]

/-- C7 witness at the built-in calibration data. -/
theorem C7_projection_total_witness :
    (0 : ℚ) < 784 ∧ 2 * (2 : ℚ) < (ImageSize.mk 784 600).width ∧
    convertE (127, 581) 784 (0, 0) ⟨784, 600⟩ (some 2) =
      Except.ok (convert_original_coor_to_current (127, 581) 784 (0, 0) ⟨784, 600⟩ 2) :=
  ⟨by norm_num, by norm_num,
   C7_projection_total (127, 581) 784 (0, 0) ⟨784, 600⟩ 2 (by norm_num) (by norm_num)⟩

/-- C8: the projected offset does not depend on the rendered element's
on-screen location: two calls agreeing on everything but `image_location`
return equal pairs. -/
theorem C8_location_independence (coor : ℚ × ℚ) (W : ℚ) (loc1 loc2 : ℚ × ℚ)
    (sz : ImageSize) (b : ℚ) :
    convert_original_coor_to_current coor W loc1 sz b =
      convert_original_coor_to_current coor W loc2 sz b := rfl

/-- C9: the implemented projection coincides, for every input, with the
formula `scale = (width - 2*border)/original_width`,
`x = (X0-1)*scale - floor(width/2) + 1 + border`,
`y = (Y0-1)*scale - floor(height/2) + 1 + border`: floor division for the
half-size terms and the single width-derived scale on both axes. -/
theorem C9_projection_characterization (coor : ℚ × ℚ) (W : ℚ) (loc : ℚ × ℚ)
    (sz : ImageSize) (b : ℚ) :
    convert_original_coor_to_current coor W loc sz b =
      projection_per_spec coor W sz b := by
  simp [convert_original_coor_to_current, projection_per_spec, ratFloor_eq_floor]

/-- C10: when the computed border style contains several integer-px tokens,
`find_image_element` parses the leftmost one. -/
theorem C10_leftmost_token (s : String) (n : ℕ) (others : List ℕ)
    (h : allIntPxTokens s = n :: others) :
    (find_image_element (0, 0) ⟨0, 0⟩ s).border_size = some n ∧
    searchIntPx s = some n := by
  have hs : searchIntPx s = some n := by
    rw [searchIntPx, searchFrom_eq_head]
    rw [allIntPxTokens] at h
    rw [h]
    rfl
  exact ⟨by rw [find_image_element]; exact hs, hs⟩

/-- C10 witness: a style string with two tokens parses to the leftmost. -/
theorem C10_leftmost_token_witness :
    allIntPxTokens "1px solid 2px" = [1, 2] ∧
    (find_image_element (0, 0) ⟨0, 0⟩ "1px solid 2px").border_size = some 1 ∧
    searchIntPx "1px solid 2px" = some 1 :=
  ⟨by decide,
   (C10_leftmost_token "1px solid 2px" 1 [2] (by decide)).1,
   (C10_leftmost_token "1px solid 2px" 1 [2] (by decide)).2⟩

/-- C4: border parsing in `find_image_element`.  A computed border style
with exactly one integer-px token parses to that integer.  A style with no
such token leaves `border_size` at `None` (no numeric default is ever
substituted), and the run then aborts fatally — the unparsed border is a
`TypeError` at its first downstream use, so the missing-border condition is
fatal rather than silently defaulted. -/
theorem C4_border_parsing :
    (∀ (s : String) (loc : ℚ × ℚ) (sz : ImageSize) (n : ℕ),
      allIntPxTokens s = [n] →
      (find_image_element loc sz s).border_size = some n) ∧
    (∀ (s : String) (a : ImageAutomation) (loc : ℚ × ℚ) (sz : ImageSize),
      allIntPxTokens s = [] → a.original_axes_points ≠ [] →
      (find_image_element loc sz s).border_size = none ∧
      run a loc sz s = Except.error PyErr.typeError) := by
  constructor
  · intro s loc sz n h
    show searchIntPx s = some n
    rw [searchIntPx, searchFrom_eq_head]
    rw [allIntPxTokens] at h
    rw [h]
    rfl
  · intro s a loc sz hs hne
    have hb : searchIntPx s = none := by
      rw [searchIntPx, searchFrom_eq_head]
      rw [allIntPxTokens] at hs
      rw [hs]
      rfl
    have hb2 : (find_image_element loc sz s).border_size = none := hb
    refine ⟨hb2, ?_⟩
    obtain ⟨c, rest, hcr⟩ := List.exists_cons_of_ne_nil hne
    rw [run]
    simp only [hb2]
    rw [perform_actions, hcr, clicksE]
    rfl

/-- C4 witness: a one-token style parses to its integer; a token-free style
leaves the border `None` and the run fails with a `TypeError`. -/
theorem C4_border_parsing_witness :
    (allIntPxTokens "2px solid rgb(0, 0, 0)" = [2] ∧
      (find_image_element (0, 0) ⟨784, 600⟩ "2px solid rgb(0, 0, 0)").border_size = some 2) ∧
    (allIntPxTokens "medium none rgb(0, 0, 0)" = [] ∧
      (find_image_element (0, 0) ⟨784, 600⟩ "medium none rgb(0, 0, 0)").border_size = none ∧
      run mainAutomation (0, 0) ⟨784, 600⟩ "medium none rgb(0, 0, 0)" =
        Except.error PyErr.typeError) :=
  ⟨⟨by decide, C4_border_parsing.1 "2px solid rgb(0, 0, 0)" (0, 0) ⟨784, 600⟩ 2 (by decide)⟩,
   ⟨by decide,
    (C4_border_parsing.2 "medium none rgb(0, 0, 0)" mainAutomation (0, 0) ⟨784, 600⟩
      (by decide) (by simp [mainAutomation, ImageAutomation.init, initializeImageObj])).1,
    (C4_border_parsing.2 "medium none rgb(0, 0, 0)" mainAutomation (0, 0) ⟨784, 600⟩
      (by decide) (by simp [mainAutomation, ImageAutomation.init, initializeImageObj])).2⟩⟩

/-- C2: at the built-in configuration the entry step's send-keys trace is
`[("x-axis-p2", 10), ("x-axis-p2", 100)]`: the y-axis second calibration
value 100 is typed into the x-axis field (src/app.py line 165 reuses
`x_axis_p2`), and nothing is ever typed into `y-axis-p2` — contradicting
the claim that each axis's value goes into its own field. -/
theorem C2_value_entry_targets (loc : ℚ × ℚ) (sz : ImageSize) (b : ℚ) :
    Except.map sendKeysTargets (perform_actions mainAutomation loc sz (some b)) =
      Except.ok [("x-axis-p2", (10 : ℚ)), ("x-axis-p2", (100 : ℚ))] := by
  have hw : mainAutomation.original_image_width ≠ 0 := by
    norm_num [mainAutomation, ImageAutomation.init, initializeImageObj]
  rw [perform_actions_ok _ _ _ _ hw]
  show Except.ok _ = _
  rw [sendKeysTargets_append, sendKeysTargets_append,
      sendKeysTargets_bind_clickTriple, sendKeysTargets_bind_clickTriple]
  rfl

/-- C3: the synthesized click sequence is the four axis reference points in
the fixed order `[xAxis_point1, xAxis_point2, yAxis_point1, yAxis_point2]`
followed by the data points in input order, with no reordering and no
deduplication; and permuting `clickedPoints` permutes the click sequence
identically (in particular, permuted inputs give permuted sequences with
the axis prefix unchanged). -/
theorem C3_click_sequence (img : UploadedImage) (dp wa : String) (loc : ℚ × ℚ)
    (sz : ImageSize) (b : ℚ) (hw : img.image_width ≠ 0) :
    (Except.map clickOffsets
        (perform_actions (ImageAutomation.init dp wa img) loc sz (some b)) =
      Except.ok
        ([img.xAxis_point1, img.xAxis_point2, img.yAxis_point1, img.yAxis_point2].map
            (fun p =>
              convert_original_coor_to_current (p.x, p.y) img.image_width loc sz b) ++
          img.clickedPoints.map
            (fun p =>
              convert_original_coor_to_current (p.x, p.y) img.image_width loc sz b))) ∧
    (∀ ps ps2 : List Point, List.Perm ps ps2 →
      ∀ l1 l2 : List (ℚ × ℚ),
        Except.map clickOffsets
            (perform_actions (ImageAutomation.init dp wa { img with clickedPoints := ps })
              loc sz (some b)) = Except.ok l1 →
        Except.map clickOffsets
            (perform_actions (ImageAutomation.init dp wa { img with clickedPoints := ps2 })
              loc sz (some b)) = Except.ok l2 →
        List.Perm l1 l2) := by
  refine ⟨clickOffsets_perform_init img dp wa loc sz b hw, ?_⟩
  intro ps ps2 hperm l1 l2 h1 h2
  rw [clickOffsets_perform_init { img with clickedPoints := ps } dp wa loc sz b hw] at h1
  rw [clickOffsets_perform_init { img with clickedPoints := ps2 } dp wa loc sz b hw] at h2
  cases Except.ok.inj h1
  cases Except.ok.inj h2
  exact List.Perm.append (List.Perm.refl _)
    (hperm.map (fun p =>
      convert_original_coor_to_current (p.x, p.y) img.image_width loc sz b))

/-- C3 witness at the built-in calibration data. -/
theorem C3_click_sequence_witness :
    initializeImageObj.image_width ≠ 0 ∧
    Except.map clickOffsets
        (perform_actions (ImageAutomation.init "driver" "url" initializeImageObj)
          (0, 0) ⟨784, 600⟩ (some 2)) =
      Except.ok
        ([initializeImageObj.xAxis_point1, initializeImageObj.xAxis_point2,
          initializeImageObj.yAxis_point1, initializeImageObj.yAxis_point2].map
            (fun p =>
              convert_original_coor_to_current (p.x, p.y)
                initializeImageObj.image_width (0, 0) ⟨784, 600⟩ 2) ++
          initializeImageObj.clickedPoints.map
            (fun p =>
              convert_original_coor_to_current (p.x, p.y)
                initializeImageObj.image_width (0, 0) ⟨784, 600⟩ 2)) :=
  ⟨by norm_num [initializeImageObj],
   (C3_click_sequence initializeImageObj "driver" "url" (0, 0) ⟨784, 600⟩ 2
      (by norm_num [initializeImageObj])).1⟩

/-- C5: with the built-in calibration data, a run whose border style parses
successfully performs, among user-visible actions and in this order: one
file upload, one dialog acceptance, four axis clicks, two text entries,
nine data-point clicks, and then blocks for operator input. -/
theorem C5_run_sequence (loc : ℚ × ℚ) (sz : ImageSize) (style : String) (n : ℕ)
    (hstyle : searchIntPx style = some n) :
    Except.map observableKinds (run mainAutomation loc sz style) =
      Except.ok
        ([ActionKind.upload, ActionKind.dialog] ++
          List.replicate 4 ActionKind.click ++
          List.replicate 2 ActionKind.textEntry ++
          List.replicate 9 ActionKind.click ++
          [ActionKind.blockForInput]) := by
  have hw : mainAutomation.original_image_width ≠ 0 := by
    norm_num [mainAutomation, ImageAutomation.init, initializeImageObj]
  have hb : (find_image_element loc sz style).border_size = some n := hstyle
  rw [run]
  simp only [hb]
  rw [perform_actions_ok _ _ _ _ hw]
  rfl

/-- C5 witness at a concrete parsed border style. -/
theorem C5_run_sequence_witness :
    searchIntPx "2px" = some 2 ∧
    Except.map observableKinds (run mainAutomation (0, 0) ⟨784, 600⟩ "2px") =
      Except.ok
        ([ActionKind.upload, ActionKind.dialog] ++
          List.replicate 4 ActionKind.click ++
          List.replicate 2 ActionKind.textEntry ++
          List.replicate 9 ActionKind.click ++
          [ActionKind.blockForInput]) :=
  ⟨by decide, C5_run_sequence (0, 0) ⟨784, 600⟩ "2px" 2 (by decide)⟩

end GraphHandler
